import Mathlib

/-!
Shallow embedding of the apartment asset pipeline:
src/z_image_batch.py (job builder / generation driver) and
src/organize_assets.py (asset reconciler).

Strings are Lean strings, JSON objects become structures with optional
fields, filesystem state is passed explicitly, and the random and clock
inputs are parameters.
-/

namespace Apartment

/-- Python truthiness of an optional string: absent and the empty string
are falsy (models both the a-or-b prompt chain and bare if-tests on
optional string fields). -/
def strTruthy : Option String → Bool
  | some s => s ≠ ""
  | none => false

/-- Python x or y on optional strings: keep x when truthy, else y. -/
def pyOr (a b : Option String) : Option String :=
  if strTruthy a then a else b

/-- Python truthiness of an optional list field: absent and the empty
list are falsy. -/
def listTruthy : Option (List String) → Bool
  | some l => !l.isEmpty
  | none => false

/-- One manifest entry object. Every field is optional; a field set to
none models the key being absent from the JSON object
(z_image_batch.py uses item.get, organize_assets.py indexes id
directly). The CFG field (a float) is omitted: no claim touches it. -/
structure Entry where
  id : Option String
  tags : Option (List String)
  title : Option String
  description : Option String
  Prompt : Option String
  NegativePrompt : Option String
  Width : Option Int
  Height : Option Int
  Seed : Option Int
  Steps : Option Int
deriving DecidableEq

/-- Prompt text resolution of z_image_batch.py line 100:
item.get(Prompt) or item.get(description) or item.get(title). -/
def promptTextOf (e : Entry) : Option String :=
  pyOr e.Prompt (pyOr e.description e.title)

/-- CPython str.isalnum modelled on code points below 0x100 (ASCII
digits and letters plus the Latin-1 letters and numeric characters,
per the Unicode Lu/Ll/Lo/No categories in that block); code points at
or above 0x100 are outside the modelled range and mapped to false.
The theorems below only evaluate this function below 0x100. -/
def pyIsAlnum (c : Char) : Bool :=
  let n := c.toNat
  (decide (48 ≤ n) && decide (n ≤ 57)) ||
  (decide (65 ≤ n) && decide (n ≤ 90)) ||
  (decide (97 ≤ n) && decide (n ≤ 122)) ||
  decide (n = 0xAA) || decide (n = 0xB2) || decide (n = 0xB3) ||
  decide (n = 0xB5) || decide (n = 0xB9) || decide (n = 0xBA) ||
  (decide (0xBC ≤ n) && decide (n ≤ 0xBE)) ||
  (decide (0xC0 ≤ n) && decide (n ≤ 0xD6)) ||
  (decide (0xD8 ≤ n) && decide (n ≤ 0xF6)) ||
  (decide (0xF8 ≤ n) && decide (n ≤ 0xFF))

/-- Keyword sanitization of z_image_batch.py line 118: keep exactly the
characters c with c.isalnum() or c in (underscore, hyphen), in order. -/
def sanitizeKeyword (s : String) : String :=
  ⟨s.toList.filter (fun c => pyIsAlnum c || c = '_' || c = '-')⟩

/-- Membership in the character class of the spec: A-Za-z0-9 plus
underscore (code point 95) and hyphen (code point 45), written out by
code point. -/
def inAsciiClass (c : Char) : Bool :=
  (decide (48 ≤ c.toNat) && decide (c.toNat ≤ 57)) ||
  (decide (65 ≤ c.toNat) && decide (c.toNat ≤ 90)) ||
  (decide (97 ≤ c.toNat) && decide (c.toNat ≤ 122)) ||
  decide (c.toNat = 95) || decide (c.toNat = 45)

/-- Sanitization as the spec words it: retain exactly the ASCII class
A-Za-z0-9 plus underscore and hyphen, order-preserving, dropping every
other character. Spec-side definition, to be compared with
sanitizeKeyword. -/
def specSanitize (s : String) : String :=
  ⟨s.toList.filter inAsciiClass⟩

/-- Python str.split() with no argument: split on whitespace runs,
discarding empty pieces. -/
def pySplitWs (s : String) : List String :=
  (s.split Char.isWhitespace).filter (fun t => t ≠ "")

/-- Python str.lower modelled per character (Char.toLower, exact on
ASCII, the range all theorems below evaluate). -/
def pyLower (s : String) : String :=
  ⟨s.toList.map Char.toLower⟩

/-- Python str.replace applied with the single-character pattern a space
and replacement an underscore (z_image_batch.py line 113). -/
def spaceToUnderscore (s : String) : String :=
  ⟨s.toList.map (fun c => if c = ' ' then '_' else c)⟩

/-- Keyword synthesis of z_image_batch.py lines 109-118: join tags
with underscores then lowercase; else lowercase the title and replace
spaces; else join the first two whitespace tokens of the description
and lowercase; else the literal image; finally sanitize. -/
def synthKeyword (e : Entry) : String :=
  let keyword :=
    if listTruthy e.tags then
      pyLower (String.intercalate "_" (e.tags.getD []))
    else if strTruthy e.title then
      spaceToUnderscore (pyLower (e.title.getD ""))
    else if strTruthy e.description then
      pyLower (String.intercalate "_" ((pySplitWs (e.description.getD "")).take 2))
    else "image"
  sanitizeKeyword keyword

/-- A wall-clock instant as datetime.now() exposes it to strftime. -/
structure PyDateTime where
  year : Nat
  month : Nat
  day : Nat
  hour : Nat
  minute : Nat
  second : Nat
deriving DecidableEq

/-- Two-digit zero padding used by the numeric strftime directives. -/
def pad2 (n : Nat) : String :=
  if n < 10 then "0" ++ toString n else toString n

/-- Interpreter for the strftime directives the source can reach:
percent-Y, percent-m, percent-d, percent-H, percent-M, percent-S;
any other character after a percent sign is kept verbatim with the
percent sign, and all other characters are literals. -/
def strftimeAux (dt : PyDateTime) : List Char → List Char
  | [] => []
  | '%' :: c :: rest =>
    (match c with
     | 'Y' => toString dt.year
     | 'm' => pad2 dt.month
     | 'd' => pad2 dt.day
     | 'H' => pad2 dt.hour
     | 'M' => pad2 dt.minute
     | 'S' => pad2 dt.second
     | c2 => String.mk ['%', c2]).toList ++ strftimeAux dt rest
  | c :: rest => c :: strftimeAux dt rest

/-- datetime.strftime over an explicit instant. -/
def pyStrftime (dt : PyDateTime) (fmt : String) : String :=
  ⟨strftimeAux dt fmt.toList⟩

/-- The timestamp of z_image_batch.py line 121: the literal format
string of the source, which repeats the month directive after the hour
and then the literal letters m s s (it never emits a minute or second
directive). -/
def timestampOf (dt : PyDateTime) : String :=
  pyStrftime dt "%Y%m%d-%H%mmss"

/-- os.path.join for a directory and a bare filename. -/
def pathJoin (a b : String) : String := a ++ "/" ++ b

/-- The CLI defaults of z_image_batch.py that entry processing reads. -/
structure Args where
  Width : Int
  Height : Int
  NegativePrompt : String
  Seed : Int
  Steps : Int
deriving DecidableEq

/-- argparse default values (z_image_batch.py lines 52-58). -/
def argsDefault : Args :=
  ⟨1024, 1024, "bad hands, blurry, low quality", -1, 9⟩

/-- One fully resolved job descriptor as appended to
prompts_to_process (guidance scale omitted: floating point). -/
structure Job where
  prompt : String
  negative_prompt : String
  width : Int
  height : Int
  output_path : String
  seed : Int
  steps : Int
deriving DecidableEq

/-- Per-entry job construction of z_image_batch.py lines 98-133: skip
the entry when the resolved prompt text is falsy, otherwise build the
descriptor with per-entry overrides falling back to CLI defaults and
the staging filename id-prefix, keyword, WxH, timestamp. -/
def buildJob (args : Args) (outDir : String) (dt : PyDateTime) (item : Entry) : Option Job :=
  let p_text := promptTextOf item
  if strTruthy p_text then
    let w := item.Width.getD args.Width
    let h := item.Height.getD args.Height
    let keyword := synthKeyword item
    let idPart := if strTruthy item.id then item.id.getD "" ++ "_" else ""
    let filename :=
      idPart ++ keyword ++ "_" ++ toString w ++ "x" ++ toString h ++ "_" ++
        timestampOf dt ++ ".png"
    some
      { prompt := p_text.getD ""
        negative_prompt := item.NegativePrompt.getD args.NegativePrompt
        width := w
        height := h
        output_path := pathJoin outDir filename
        seed := item.Seed.getD args.Seed
        steps := item.Steps.getD args.Steps }
  else none

/-- The manifest loop of z_image_batch.py lines 98-133 over a list of
entries: entries whose prompt text is falsy contribute nothing. -/
def buildJobs (args : Args) (outDir : String) (dt : PyDateTime) (items : List Entry) : List Job :=
  items.filterMap (buildJob args outDir dt)

/-- Lines printed by the entry loop of z_image_batch.py lines 98-133.
The loop body contains no print call at all, so the trace is empty for
every input; in particular a skipped entry produces no warning line. -/
def buildJobsTrace (items : List Entry) : List String :=
  items.filterMap (fun _ => (none : Option String))

/-- The value a JSON key can hold where the source expects a list of
entry objects: a real list, or some other JSON value. -/
inductive JVal where
  | entries (l : List Entry)
  | nonList
deriving DecidableEq

/-- A parsed manifest document: a top-level object (with or without the
image_prompts key), a bare top-level array of entries, or any other
top-level value. -/
inductive ManifestJson where
  | obj (ips : Option JVal)
  | arr (l : List Entry)
  | other
deriving DecidableEq

/-- Manifest-shape handling of z_image_batch.py lines 94-96:
data.get(image_prompts, empty) when data is a dict, else data itself;
then anything that is not a list is replaced by the empty list. -/
def zItems : ManifestJson → List Entry
  | .obj none => []
  | .obj (some (.entries l)) => l
  | .obj (some .nonList) => []
  | .arr l => l
  | .other => []

/-- Manifest-shape handling of organize_assets.py line 22:
data.get(image_prompts, empty) with no isinstance guard. On a dict it
yields the entries (or the empty default); on any other top-level
value the attribute lookup of get raises AttributeError, and an
image_prompts value that is not a list later fails iteration or
indexing — both uncaught, modelled as an error. -/
def oItems : ManifestJson → Except String (List Entry)
  | .obj none => .ok []
  | .obj (some (.entries l)) => .ok l
  | .obj (some .nonList) => .error "TypeError: image_prompts is not a list of objects"
  | .arr _ => .error "AttributeError: list object has no attribute get"
  | .other => .error "AttributeError: object has no attribute get"

/-- CLI invocation of z_image_batch.py as entry processing sees it. -/
structure ZArgs where
  Prompt : Option String
  PromptJsonFile : Option String
  OutputPath : String
  defaults : Args

/-- Environment of one z_image_batch.py run: whether the pipeline
loads, whether the staging directory already exists, whether the
manifest file exists, and its parse result (error means malformed
JSON). -/
structure ZEnv where
  pipeOk : Bool
  outDirExists : Bool
  jsonFileExists : Bool
  parsed : Except Unit ManifestJson
  now : PyDateTime

/-- Observable outcome of z_image_batch.py main through job-queue
construction (the dispatch loop is modelled separately):
directories the run creates, the job queue, and the reported error
line if the run stops (printed message or uncaught exception). -/
structure ZResult where
  dirsCreated : List String
  jobs : List Job
  errorLine : Option String
deriving DecidableEq

/-- Control flow of z_image_batch.py main, lines 62-136: pipeline
setup first (lines 65-67, before any directory is touched), then
os.makedirs on the staging directory (line 71, creating it when
absent), then mode selection; the missing-file error, the JSON parse
error and the no-mode error all happen after the makedirs call. -/
def zMain (a : ZArgs) (env : ZEnv) : ZResult :=
  if !env.pipeOk then ⟨[], [], some "Error loading pipeline"⟩
  else
    let dirs := if env.outDirExists then [] else ["backgrounds"]
    if strTruthy a.Prompt then
      ⟨dirs,
       [{ prompt := a.Prompt.getD ""
          negative_prompt := a.defaults.NegativePrompt
          width := a.defaults.Width
          height := a.defaults.Height
          output_path := a.OutputPath
          seed := a.defaults.Seed
          steps := a.defaults.Steps }],
       none⟩
    else if strTruthy a.PromptJsonFile then
      if !env.jsonFileExists then
        ⟨dirs, [], some "Error: File not found"⟩
      else
        match env.parsed with
        | .error _ => ⟨dirs, [], some "json.JSONDecodeError"⟩
        | .ok data => ⟨dirs, buildJobs a.defaults "backgrounds" env.now (zItems data), none⟩
    else
      ⟨dirs, [], some "Please provide --Prompt or --PromptJsonFile"⟩

/-- Dimension normalization of z_image_batch.py lines 143-149: floor
division by 16 then times 16 on each dimension (Python floor division
is Int.fdiv), plus whether the adjustment warning is printed (it
prints exactly when a value changed). -/
def normalizeDims (w h : Int) : (Int × Int) × Bool :=
  ((w.fdiv 16 * 16, h.fdiv 16 * 16),
   decide (w.fdiv 16 * 16 ≠ w) || decide (h.fdiv 16 * 16 ≠ h))

/-- random.randint(a, b) of the Python standard library: an integer N
with a ≤ N ≤ b, both endpoints included, as a function of the raw
uniform draw r. -/
def randint (a b : Int) (r : Nat) : Int :=
  a + Int.ofNat (r % (b - a + 1).toNat)

/-- Seed resolution of z_image_batch.py lines 28-29, at dispatch time:
a seed of -1 becomes randint(0, 2 to the 32 minus 1); anything else
passes through. -/
def resolveSeed (seed : Int) (r : Nat) : Int :=
  if seed = -1 then randint 0 (2 ^ 32 - 1) r else seed

/-- State of the asset reconciler run (organize_assets.py): the
canonical store as a map from filename to file bytes, the moved_count
counter, and the warning lines printed so far. -/
structure RecState where
  dest : String → Option String
  count : Nat
  warnings : List String

/-- Body of the reconciler loop of organize_assets.py lines 42-63 for
one identifier: candidates are the source files whose name starts with
the identifier, in listing order; no candidate prints a warning and
skips, otherwise the first candidate is copied (shutil.copy2:
content-preserving overwrite) to the canonical name id.png. The
source directory is the listing taken once before the loop, as a list
of name-content pairs in listing order (names in a directory are
distinct). -/
def reconcileStep (src : List (String × String)) (st : RecState) (i : String) : RecState :=
  match (src.filter (fun fc => fc.1.startsWith i)).head? with
  | none => { st with warnings := st.warnings ++ ["WARNING: No file found for ID: " ++ i] }
  | some fc =>
    { st with
        dest := Function.update st.dest (i ++ ".png") (some fc.2)
        count := st.count + 1 }

/-- The reconciler loop over a list of manifest identifiers, starting
from a destination directory state d0 with moved_count zero. -/
def reconcileIds (ids : List String) (src : List (String × String))
    (d0 : String → Option String) : RecState :=
  ids.foldl (reconcileStep src) ⟨d0, 0, []⟩

/-- The reconciler loop as organize_assets.py actually drives it,
lines 36-63: the identifier of each entry is read with a plain
indexing operation, so an entry without the id key raises KeyError,
aborting the run and leaving the state reached so far. -/
def organizeEntries (src : List (String × String)) :
    List Entry → RecState → Except (String × RecState) RecState
  | [], st => .ok st
  | e :: rest, st =>
    match e.id with
    | none => .error ("KeyError: id", st)
    | some i => organizeEntries src rest (reconcileStep src st i)

/-- Environment of one organize_assets.py run. -/
structure OEnv where
  targetDirExists : Bool
  manifestExists : Bool
  parsed : Except Unit ManifestJson
  src : List (String × String)
  dest0 : String → Option String

/-- Observable outcome of organize_assets.py: directories created and
either the final state or the reported error (printed message or
uncaught exception). -/
structure OResult where
  dirsCreated : List String
  result : Except String RecState

/-- Control flow of organize_assets.py lines 6-65: the target
directory is created first (lines 14-16, before the manifest is even
opened), then the manifest is loaded (FileNotFoundError is caught and
reported, line 24; a JSON parse error is uncaught), then the entry
loop runs. -/
def organizeMain (env : OEnv) : OResult :=
  let dirs := if env.targetDirExists then [] else ["assets/textures"]
  if !env.manifestExists then
    ⟨dirs, .error "Error: graphics_batch.json not found."⟩
  else
    match env.parsed with
    | .error _ => ⟨dirs, .error "json.JSONDecodeError"⟩
    | .ok data =>
      match oItems data with
      | .error m => ⟨dirs, .error m⟩
      | .ok entries =>
        match organizeEntries env.src entries ⟨env.dest0, 0, []⟩ with
        | .error em => ⟨dirs, .error em.1⟩
        | .ok st => ⟨dirs, .ok st⟩

/-- Candidate set as the spec words it: all filenames in the listing
that begin with the identifier, case-sensitive, in listing order. -/
def candidatesFor (i : String) (names : List String) : List String :=
  names.filter (fun f => f.startsWith i)

/-- The warning line the reconciler prints for an unmatched id. -/
def warnMsg (i : String) : String :=
  "WARNING: No file found for ID: " ++ i

/-- The copies the spec prescribes, in manifest order: for each
identifier with a nonempty candidate set, the canonical name id.png
paired with the content of the first candidate in listing order. -/
def plannedCopies (ids : List String) (src : List (String × String)) :
    List (String × String) :=
  ids.filterMap
    (fun i => ((src.filter (fun fc => fc.1.startsWith i)).head?).map
      (fun fc => (i ++ ".png", fc.2)))

/-- Apply a list of copies to a destination-directory state in order;
a later copy to the same name overwrites an earlier one. -/
def applyCopies (d : String → Option String) (cs : List (String × String)) :
    String → Option String :=
  cs.foldl (fun d2 c => Function.update d2 c.1 (some c.2)) d

/-- The content of the last copy targeting a given name, if any. -/
def lastVal (cs : List (String × String)) (k : String) : Option String :=
  cs.foldl (fun a c => if c.1 = k then some c.2 else a) none

/-- Whether an identifier has at least one candidate in the source. -/
def hasCandidate (i : String) (src : List (String × String)) : Bool :=
  !(src.filter (fun fc => fc.1.startsWith i)).isEmpty

/-- Whether an Except value is a success. -/
def isOkE : Except α β → Bool
  | .ok _ => true
  | .error _ => false

/-- The dimension-normalization properties the spec asserts for one
pair of inputs: the returned pair is the floor-to-16 rounding, each
value is at most its input and a multiple of 16, a value changed
exactly when its input was not a multiple of 16, and the warning
prints exactly when a value changed. -/
def NormalizeClaim (w h : Int) : Prop :=
  (normalizeDims w h).1.1 = w.fdiv 16 * 16 ∧
  (normalizeDims w h).1.2 = h.fdiv 16 * 16 ∧
  (normalizeDims w h).1.1 ≤ w ∧ (normalizeDims w h).1.2 ≤ h ∧
  (16 ∣ (normalizeDims w h).1.1) ∧ (16 ∣ (normalizeDims w h).1.2) ∧
  ((normalizeDims w h).1.1 ≠ w ↔ ¬ (16:Int) ∣ w) ∧
  ((normalizeDims w h).1.2 ≠ h ↔ ¬ (16:Int) ∣ h) ∧
  ((normalizeDims w h).2 = true ↔
    ((normalizeDims w h).1.1 ≠ w ∨ (normalizeDims w h).1.2 ≠ h))

/-- A build instant used by concrete evaluations. -/
def dtW : PyDateTime := ⟨2024, 1, 1, 0, 0, 0⟩

/-- 2024-01-01 10:05:00. -/
def dtC5a : PyDateTime := ⟨2024, 1, 1, 10, 5, 0⟩

/-- 2024-01-01 10:45:00, same hour as dtC5a, different minute. -/
def dtC5b : PyDateTime := ⟨2024, 1, 1, 10, 45, 0⟩

/-- A manifest entry with id, tags, a prompt and explicit size. -/
def entryC5 : Entry :=
  ⟨some "hero", some ["Hero"], none, none, some "a hero portrait",
   none, some 800, some 600, none, none⟩

/-- A manifest entry with no id, tags, title, description or prompt. -/
def entryC6 : Entry :=
  ⟨none, none, none, none, none, none, none, none, none, none⟩

/-- A manifest entry whose prompt text resolves from the Prompt key. -/
def entryC6pre : Entry :=
  ⟨none, none, none, none, some "city skyline", none, none, none, none, none⟩

/-- A manifest entry with an id and a prompt. -/
def entryC8 : Entry :=
  ⟨some "x", none, none, none, some "p", none, none, none, none, none⟩

/-- CLI invocation in manifest mode. -/
def zArgsC9 : ZArgs := ⟨none, some "prompts.json", "generated_image.png", argsDefault⟩

/-- Environment where the pipeline loads, the staging directory does
not exist yet, and the manifest file is absent. -/
def zEnvC9 : ZEnv := ⟨true, false, false, .ok (.obj none), dtW⟩

/-- Reconciler environment where the target directory does not exist
yet and the manifest file is absent. -/
def oEnvC9 : OEnv := ⟨false, false, .ok (.obj none), [], fun _ => none⟩

/-- An entry carrying the id a. -/
def entryA10 : Entry :=
  ⟨some "a", none, none, none, none, none, none, none, none, none⟩

/-- An entry without the id key. -/
def entryNoId10 : Entry :=
  ⟨none, none, none, none, some "p", none, none, none, none, none⟩

/-- A one-file source listing matching the id a. -/
def srcW10 : List (String × String) := [("a_file.png", "bytesA")]

/-- An empty destination directory with zero count. -/
def st0W10 : RecState := ⟨fun _ => none, 0, []⟩

/-- The state after reconciling the id a from st0W10. -/
def stAW10 : RecState := reconcileStep srcW10 st0W10 "a"

/-! ### Reconciler loop lemmas -/

theorem reconcileStep_of_nil (src : List (String × String)) (st : RecState) (i : String)
    (h : src.filter (fun fc => fc.1.startsWith i) = []) :
    reconcileStep src st i = ⟨st.dest, st.count, st.warnings ++ [warnMsg i]⟩ := by
  unfold reconcileStep
  rw [h]
  rfl

theorem reconcileStep_of_cons (src : List (String × String)) (st : RecState) (i : String)
    (fc : String × String) (rest : List (String × String))
    (h : src.filter (fun fc => fc.1.startsWith i) = fc :: rest) :
    reconcileStep src st i =
      ⟨Function.update st.dest (i ++ ".png") (some fc.2), st.count + 1, st.warnings⟩ := by
  unfold reconcileStep
  rw [h]
  rfl

theorem plannedCopies_cons_nil (i : String) (ids : List String) (src : List (String × String))
    (h : src.filter (fun fc => fc.1.startsWith i) = []) :
    plannedCopies (i :: ids) src = plannedCopies ids src := by
  unfold plannedCopies
  rw [List.filterMap_cons, h]
  rfl

theorem plannedCopies_cons_cons (i : String) (ids : List String) (src : List (String × String))
    (fc : String × String) (rest : List (String × String))
    (h : src.filter (fun fc => fc.1.startsWith i) = fc :: rest) :
    plannedCopies (i :: ids) src = (i ++ ".png", fc.2) :: plannedCopies ids src := by
  unfold plannedCopies
  rw [List.filterMap_cons, h]
  rfl

theorem hasCandidate_false (src : List (String × String)) (i : String)
    (h : src.filter (fun fc => fc.1.startsWith i) = []) :
    hasCandidate i src = false := by
  simp [hasCandidate, h]

theorem hasCandidate_true (src : List (String × String)) (i : String)
    (fc : String × String) (rest : List (String × String))
    (h : src.filter (fun fc => fc.1.startsWith i) = fc :: rest) :
    hasCandidate i src = true := by
  simp [hasCandidate, h]

theorem reconcileIds_go (src : List (String × String)) (ids : List String) :
    ∀ st : RecState,
    ids.foldl (reconcileStep src) st =
      ⟨applyCopies st.dest (plannedCopies ids src),
       st.count + (ids.filter (fun i => hasCandidate i src)).length,
       st.warnings ++ (ids.filter (fun i => !hasCandidate i src)).map warnMsg⟩ := by
  induction ids with
  | nil =>
    intro st
    simp [plannedCopies, applyCopies]
  | cons i ids ih =>
    intro st
    rw [List.foldl_cons]
    cases hfil : src.filter (fun fc => fc.1.startsWith i) with
    | nil =>
      have hc := hasCandidate_false src i hfil
      rw [reconcileStep_of_nil src st i hfil, ih, plannedCopies_cons_nil i ids src hfil]
      simp [List.filter_cons, hc, List.append_assoc]
    | cons fc rest =>
      have hc := hasCandidate_true src i fc rest hfil
      rw [reconcileStep_of_cons src st i fc rest hfil, ih,
        plannedCopies_cons_cons i ids src fc rest hfil]
      simp only [RecState.mk.injEq, List.filter_cons, hc, Bool.not_true, Bool.false_eq_true,
        if_false, if_true, List.length_cons]
      exact ⟨rfl, by omega, trivial⟩

theorem candidatesFor_map_fst (i : String) (src : List (String × String)) :
    candidatesFor i (src.map Prod.fst) = (src.filter (fun fc => fc.1.startsWith i)).map Prod.fst := by
  unfold candidatesFor
  rw [List.filter_map]
  rfl

theorem candidates_isEmpty (i : String) (src : List (String × String)) :
    (candidatesFor i (src.map Prod.fst)).isEmpty = !(hasCandidate i src) := by
  rw [candidatesFor_map_fst, hasCandidate, Bool.not_not]
  cases src.filter (fun fc => fc.1.startsWith i) <;> rfl

/-- C1: the Asset Reconciler walks the manifest identifiers in order
against the single source-directory listing: every identifier whose
candidate set (filenames beginning with the identifier string,
case-sensitive exact text prefix) is empty contributes exactly its
warning line, every other identifier copies the first candidate in
listing order to the canonical name built from the identifier plus
the png suffix (overwriting any earlier file of that name), and the
reported count is the number of identifiers with at least one
candidate. -/
theorem reconciler_functional_spec (ids : List String) (src : List (String × String))
    (d0 : String → Option String) :
    reconcileIds ids src d0 =
      ⟨applyCopies d0 (plannedCopies ids src),
       (ids.filter (fun i => !(candidatesFor i (src.map Prod.fst)).isEmpty)).length,
       (ids.filter (fun i => (candidatesFor i (src.map Prod.fst)).isEmpty)).map warnMsg⟩ := by
  unfold reconcileIds
  rw [reconcileIds_go]
  simp [candidates_isEmpty, Bool.not_not]

/-! ### Copy-application lemmas -/

theorem foldl_lastVal (k : String) (cs : List (String × String)) :
    ∀ acc : Option String,
    cs.foldl (fun a c => if c.1 = k then some c.2 else a) acc =
      (cs.foldl (fun a c => if c.1 = k then some c.2 else a) none).elim acc some := by
  induction cs with
  | nil => intro acc; rfl
  | cons c cs ih =>
    intro acc
    rw [List.foldl_cons, List.foldl_cons, ih (if c.1 = k then some c.2 else acc),
      ih (if c.1 = k then some c.2 else none)]
    cases hl : cs.foldl (fun a c => if c.1 = k then some c.2 else a) none with
    | none => by_cases h : c.1 = k <;> simp [h]
    | some v => rfl

theorem applyCopies_eval (cs : List (String × String)) :
    ∀ (d : String → Option String) (k : String),
    applyCopies d cs k = (lastVal cs k).elim (d k) some := by
  induction cs with
  | nil => intro d k; rfl
  | cons c cs ih =>
    intro d k
    show applyCopies (Function.update d c.1 (some c.2)) cs k = _
    rw [ih]
    have hl : lastVal (c :: cs) k =
        (lastVal cs k).elim (if c.1 = k then some c.2 else none) some := by
      show (c :: cs).foldl _ none = _
      rw [List.foldl_cons]
      exact foldl_lastVal k cs _
    rw [hl]
    cases lastVal cs k with
    | none =>
      by_cases h : c.1 = k
      · simp [h, Function.update_apply]
      · simp [h, Function.update_apply, Ne.symm h]
    | some v => rfl

theorem applyCopies_idem (d : String → Option String) (cs : List (String × String)) :
    applyCopies (applyCopies d cs) cs = applyCopies d cs := by
  funext k
  rw [applyCopies_eval cs (applyCopies d cs) k]
  cases hl : lastVal cs k with
  | none => rfl
  | some v =>
    rw [applyCopies_eval cs d k, hl]
    rfl

/-- C2: re-running the reconciler on an unchanged source listing and
identifier list, starting from the destination state the first run
produced, leaves the destination state unchanged and reports the same
count (reconciliation is idempotent). -/
theorem reconciler_idempotent (ids : List String) (src : List (String × String))
    (d0 : String → Option String) :
    (reconcileIds ids src (reconcileIds ids src d0).dest).dest = (reconcileIds ids src d0).dest ∧
    (reconcileIds ids src (reconcileIds ids src d0).dest).count =
      (reconcileIds ids src d0).count := by
  have hgo : ∀ d : String → Option String,
      reconcileIds ids src d =
        ⟨applyCopies d (plannedCopies ids src),
         0 + (ids.filter (fun i => hasCandidate i src)).length,
         [] ++ (ids.filter (fun i => !hasCandidate i src)).map warnMsg⟩ :=
    fun d => reconcileIds_go src ids ⟨d, 0, []⟩
  rw [hgo d0, hgo]
  exact ⟨applyCopies_idem d0 (plannedCopies ids src), rfl⟩

/-! ### Entry-driven reconciler loop -/

theorem organizeEntries_all_ids (src : List (String × String)) :
    ∀ (entries : List Entry) (st : RecState), (∀ e ∈ entries, e.id.isSome) →
      isOkE (organizeEntries src entries st) = true := by
  intro entries
  induction entries with
  | nil => intro st _; rfl
  | cons e rest ih =>
    intro st h
    have he := h e (List.mem_cons_self e rest)
    cases hid : e.id with
    | none => rw [hid] at he; exact absurd he (by simp)
    | some i =>
      simp only [organizeEntries, hid]
      exact ih _ (fun x hx => h x (List.mem_cons_of_mem e hx))

theorem organizeEntries_append_error (src : List (String × String)) (e : Entry)
    (post : List Entry) (he : e.id = none) :
    ∀ (pre : List Entry) (st st2 : RecState),
      organizeEntries src pre st = .ok st2 →
      organizeEntries src (pre ++ e :: post) st = .error ("KeyError: id", st2) := by
  intro pre
  induction pre with
  | nil =>
    intro st st2 h
    have hst : st = st2 := by simpa [organizeEntries] using h
    subst hst
    simp [organizeEntries, he]
  | cons a pre ih =>
    intro st st2 h
    cases hid : a.id with
    | none =>
      simp only [organizeEntries, hid] at h
      exact absurd h (by simp)
    | some i =>
      simp only [List.cons_append, organizeEntries, hid] at h ⊢
      exact ih _ _ h

/-- C10: when every manifest entry carries an id, the per-entry id
lookup of the Asset Reconciler never fails; for a manifest containing
an entry without id, the plain indexing raises KeyError, aborting the
run at that entry and leaving exactly the state accumulated for the
earlier entries (the entry is not skipped with a warning). -/
theorem organize_id_keyError (src : List (String × String)) (st : RecState) :
    (∀ entries : List Entry, (∀ e ∈ entries, e.id.isSome) →
      isOkE (organizeEntries src entries st) = true) ∧
    (∀ (pre : List Entry) (e : Entry) (post : List Entry) (st2 : RecState),
      e.id = none → organizeEntries src pre st = .ok st2 →
      organizeEntries src (pre ++ e :: post) st = .error ("KeyError: id", st2)) :=
  ⟨fun entries h => organizeEntries_all_ids src entries st h,
   fun pre e post st2 he h => organizeEntries_append_error src e post he pre st st2 h⟩

/-- Witness for C10 at a concrete manifest and source listing. -/
theorem organize_id_keyError_witness :
    (∀ e ∈ [entryA10], e.id.isSome) ∧
    isOkE (organizeEntries srcW10 [entryA10] st0W10) = true ∧
    entryNoId10.id = none ∧
    organizeEntries srcW10 [entryA10] st0W10 = .ok stAW10 ∧
    organizeEntries srcW10 ([entryA10] ++ entryNoId10 :: []) st0W10 =
      .error ("KeyError: id", stAW10) :=
  ⟨by decide,
   (organize_id_keyError srcW10 st0W10).1 [entryA10] (by decide),
   rfl,
   rfl,
   (organize_id_keyError srcW10 st0W10).2 [entryA10] entryNoId10 [] stAW10 rfl rfl⟩

/-! ### Dimension normalization -/

/-- C3: for positive integers, normalization floor-rounds each
dimension down to a multiple of 16, never exceeds the input, changes a
value exactly when the input was not already a multiple of 16, and
prints the adjustment warning exactly when a value changed. -/
theorem normalize_dims_spec (w h : Int) (hw : 0 < w) (hh : 0 < h) : NormalizeClaim w h := by
  have e16 : ∀ a : Int, a.fdiv 16 = a / 16 := fun a => Int.fdiv_eq_ediv a (by norm_num)
  have h1 : (normalizeDims w h).1.1 = w / 16 * 16 := by
    show w.fdiv 16 * 16 = w / 16 * 16
    rw [e16]
  have h2 : (normalizeDims w h).1.2 = h / 16 * 16 := by
    show h.fdiv 16 * 16 = h / 16 * 16
    rw [e16]
  have h3 : ((normalizeDims w h).2 = true) ↔ (w / 16 * 16 ≠ w ∨ h / 16 * 16 ≠ h) := by
    show (decide (w.fdiv 16 * 16 ≠ w) || decide (h.fdiv 16 * 16 ≠ h)) = true ↔ _
    rw [e16, e16]
    simp
  unfold NormalizeClaim
  rw [h1, h2, h3]
  simp only [e16, Int.dvd_iff_emod_eq_zero]
  simp only [true_and, and_true]
  omega

/-- Witness for C3 at width 100 and height 32. -/
theorem normalize_dims_spec_witness :
    (0:Int) < 100 ∧ (0:Int) < 32 ∧ NormalizeClaim 100 32 :=
  ⟨by decide, by decide, normalize_dims_spec 100 32 (by decide) (by decide)⟩

/-! ### Seed resolution -/

/-- C4 counterexample: the raw draw 2 to the 32 minus 1 is admissible
for randint(0, 2 to the 32 minus 1), and the resolved seed then equals
2 to the 32 minus 1, which lies outside the half-open range the claim
states (it is not strictly below 2 to the 32 minus 1). -/
theorem seed_range_counterexample :
    resolveSeed (-1) (2 ^ 32 - 1) = 2 ^ 32 - 1 ∧
    ¬ (resolveSeed (-1) (2 ^ 32 - 1) < (2:Int) ^ 32 - 1) := by
  decide

/-- C4 amended: a seed of -1 resolves at dispatch time to a value in
the closed range from 0 to 2 to the 32 minus 1 (that is, the half-open
range below 2 to the 32, as the testable-property section states);
every value of that range is attained by some raw draw; any other
seed passes through unchanged. -/
theorem seed_resolution_spec (r : Nat) (s : Int) (hs : s ≠ -1) (v : Int)
    (hv : 0 ≤ v ∧ v < 2 ^ 32) :
    0 ≤ resolveSeed (-1) r ∧ resolveSeed (-1) r < 2 ^ 32 ∧
    resolveSeed s r = s ∧ resolveSeed (-1) (v.toNat) = v := by
  have h32 : ((2:Int) ^ 32 - 1 - 0 + 1).toNat = 4294967296 := by decide
  have hr : ∀ q : Nat, resolveSeed (-1) q = ((q % 4294967296 : Nat) : Int) := by
    intro q
    unfold resolveSeed randint
    rw [if_pos rfl, h32]
    simp
  have hp : (2:Int) ^ 32 = 4294967296 := by norm_num
  obtain ⟨hv1, hv2⟩ := hv
  rw [hp] at hv2
  refine ⟨?_, ?_, ?_, ?_⟩
  · rw [hr]; omega
  · rw [hr, hp]
    have hlt := Nat.mod_lt r (show 0 < 4294967296 by norm_num)
    omega
  · unfold resolveSeed; rw [if_neg hs]
  · rw [hr]; omega

/-- Witness for C4 at raw draw 5, pass-through seed 7, target value 3. -/
theorem seed_resolution_spec_witness :
    (7:Int) ≠ -1 ∧ ((0:Int) ≤ 3 ∧ (3:Int) < 2 ^ 32) ∧
    (0 ≤ resolveSeed (-1) 5 ∧ resolveSeed (-1) 5 < 2 ^ 32 ∧
      resolveSeed 7 5 = 7 ∧ resolveSeed (-1) ((3:Int).toNat) = 3) :=
  ⟨by decide, ⟨by decide, by decide⟩,
   seed_resolution_spec 5 7 (by decide) 3 ⟨by decide, by decide⟩⟩

/-! ### Timestamp and filename synthesis -/

/-- C5 (code bug): the staging filename does have the form id-prefix,
keyword, WxH, timestamp, png — but the timestamp format string of the
source emits year, month, day, hour, then the month again and the
literal letters m s s, never a minute or second: two entries built in
the same hour at different minutes receive identical timestamps, so
the generated timestamp has only hour granularity, not the
at-least-minute granularity the claim states. -/
theorem timestamp_minute_collision :
    dtC5a.minute ≠ dtC5b.minute ∧ dtC5a.hour = dtC5b.hour ∧
    timestampOf dtC5a = "20240101-1001mss" ∧
    timestampOf dtC5b = "20240101-1001mss" ∧
    buildJob argsDefault "backgrounds" dtC5a entryC5 =
      some ⟨"a hero portrait", "bad hands, blurry, low quality", 800, 600,
        "backgrounds/hero_hero_800x600_20240101-1001mss.png", -1, 9⟩ :=
  ⟨by decide, by decide, by decide, by decide, by rfl⟩

/-! ### Builder skip behaviour -/

theorem buildJobsTrace_nil : ∀ items : List Entry, buildJobsTrace items = [] := by
  intro items
  induction items with
  | nil => rfl
  | cons e rest ih =>
    show List.filterMap (fun _ => (none : Option String)) (e :: rest) = []
    rw [List.filterMap_cons]
    exact ih

/-- C6 counterexample: for the concrete entry with no prompt sources
the builder skips the entry (no job, queue unaffected) but the loop
body prints nothing, so no warning is emitted, contrary to the
claim. -/
theorem builder_silent_skip_counterexample :
    strTruthy (promptTextOf entryC6) = false ∧
    buildJob argsDefault "backgrounds" dtW entryC6 = none ∧
    buildJobs argsDefault "backgrounds" dtW [entryC6] = [] ∧
    buildJobsTrace [entryC6] = [] :=
  ⟨rfl, rfl, rfl, rfl⟩

/-- C6 amended: an entry whose prompt text resolves falsy is skipped
individually and silently (the loop prints no warning line), the
batch continues, and the job queue and printed trace are exactly
those of the manifest without the entry. -/
theorem builder_skip_spec (args : Args) (outDir : String) (dt : PyDateTime)
    (pre post : List Entry) (e : Entry)
    (h : strTruthy (promptTextOf e) = false) :
    buildJob args outDir dt e = none ∧
    buildJobs args outDir dt (pre ++ e :: post) = buildJobs args outDir dt (pre ++ post) ∧
    buildJobsTrace (pre ++ e :: post) = buildJobsTrace (pre ++ post) := by
  have hb : buildJob args outDir dt e = none := by
    simp [buildJob, h]
  refine ⟨hb, ?_, ?_⟩
  · unfold buildJobs
    rw [List.filterMap_append, List.filterMap_append, List.filterMap_cons, hb]
  · rw [buildJobsTrace_nil, buildJobsTrace_nil]

/-- Witness for C6 with one surviving entry before the skipped one. -/
theorem builder_skip_spec_witness :
    strTruthy (promptTextOf entryC6) = false ∧
    (buildJob argsDefault "backgrounds" dtW entryC6 = none ∧
     buildJobs argsDefault "backgrounds" dtW ([entryC6pre] ++ entryC6 :: []) =
       buildJobs argsDefault "backgrounds" dtW ([entryC6pre] ++ []) ∧
     buildJobsTrace ([entryC6pre] ++ entryC6 :: []) = buildJobsTrace ([entryC6pre] ++ [])) :=
  ⟨rfl, builder_skip_spec argsDefault "backgrounds" dtW [entryC6pre] [] entryC6 rfl⟩

/-! ### Keyword sanitization -/

theorem char_eq_iff_toNat (c d : Char) : c = d ↔ c.toNat = d.toNat := by
  constructor
  · rintro rfl; rfl
  · intro hn
    rw [← Char.ofNat_toNat c, ← Char.ofNat_toNat d, hn]

theorem pyIsAlnum_ascii (c : Char) (h : c.toNat < 128) :
    (pyIsAlnum c || c = '_' || c = '-') = inAsciiClass c := by
  have h1 : (c = '_') = (c.toNat = 95) :=
    propext ((char_eq_iff_toNat c '_').trans Iff.rfl)
  have h2 : (c = '-') = (c.toNat = 45) :=
    propext ((char_eq_iff_toNat c '-').trans Iff.rfl)
  simp only [pyIsAlnum, inAsciiClass]
  rw [Bool.eq_iff_iff]
  simp only [Bool.or_eq_true, Bool.and_eq_true, decide_eq_true_eq]
  rw [h1, h2]
  omega

/-- C7 counterexample: the Latin-1 letter e-acute is kept by the
source filter (CPython str.isalnum is Unicode-aware) although it lies
outside the ASCII class A-Za-z0-9 underscore hyphen the claim
states. -/
theorem sanitize_unicode_counterexample :
    sanitizeKeyword "é" = "é" ∧ specSanitize "é" = "" ∧
    sanitizeKeyword "é" ≠ specSanitize "é" :=
  ⟨rfl, rfl, by decide⟩

/-- C7 amended: on ASCII input the sanitizer retains exactly the
characters of the class A-Za-z0-9 underscore hyphen, in order,
dropping every other character; on non-ASCII input the source keeps
any Unicode alphanumeric character as well, so the retained class is
wider than the claim states. -/
theorem sanitize_ascii_spec (s : String) (h : ∀ c ∈ s.toList, c.toNat < 128) :
    sanitizeKeyword s = specSanitize s := by
  unfold sanitizeKeyword specSanitize
  congr 1
  apply List.filter_congr
  intro c hc
  exact pyIsAlnum_ascii c (h c hc)

/-- Witness for C7 at the example input of the spec. -/
theorem sanitize_ascii_spec_witness :
    (∀ c ∈ ("sci-fi!!_city 2").toList, c.toNat < 128) ∧
    sanitizeKeyword "sci-fi!!_city 2" = specSanitize "sci-fi!!_city 2" ∧
    sanitizeKeyword "sci-fi!!_city 2" = "sci-fi_city2" :=
  ⟨by decide, sanitize_ascii_spec "sci-fi!!_city 2" (by decide), by decide⟩

/-! ### Manifest shapes -/

/-- C8 counterexample: a bare top-level array manifest is processed by
the Job Builder (the entries come through) but makes the Asset
Reconciler fail: the attribute lookup of get on a list raises, so the
two consumers do not accept the same shapes. -/
theorem manifest_shape_counterexample :
    zItems (.arr [entryC8]) = [entryC8] ∧
    oItems (.arr [entryC8]) = .error "AttributeError: list object has no attribute get" ∧
    isOkE (oItems (.arr [entryC8])) = false :=
  ⟨rfl, rfl, rfl⟩

/-- C8 amended: the Job Builder accepts both the object shape with the
image_prompts key and the bare array shape, yielding the same entry
sequence; the Asset Reconciler accepts only the object shape, and a
bare array aborts it with an uncaught AttributeError. -/
theorem manifest_shape_spec (l : List Entry) :
    zItems (.obj (some (.entries l))) = l ∧ zItems (.arr l) = l ∧
    oItems (.obj (some (.entries l))) = .ok l ∧
    isOkE (oItems (.arr l)) = false :=
  ⟨rfl, rfl, rfl, rfl⟩

/-! ### Error paths and side effects -/

/-- C9 counterexample: with the staging and target directories absent
and the manifest file missing, both programs report the error and
produce no jobs, but each has already created a directory before
detecting the error — the exit is not free of side effects. -/
theorem error_side_effect_counterexample :
    (zMain zArgsC9 zEnvC9).jobs = [] ∧
    (zMain zArgsC9 zEnvC9).errorLine = some "Error: File not found" ∧
    (zMain zArgsC9 zEnvC9).dirsCreated = ["backgrounds"] ∧
    isOkE (organizeMain oEnvC9).result = false ∧
    (organizeMain oEnvC9).dirsCreated = ["assets/textures"] :=
  ⟨rfl, rfl, rfl, rfl, rfl⟩

/-- C9 amended: on every configuration error (no input mode selected,
manifest file absent) and every parse error (malformed JSON), the
error is reported and no jobs are produced — but the staging
directory (Job Builder) and the target directory (Reconciler) are
still created first when absent, so the exit is not side-effect
free. -/
theorem error_paths_spec (a : ZArgs) (env : ZEnv) (oenv : OEnv)
    (hpipe : env.pipeOk = true)
    (hmode : strTruthy a.Prompt = false)
    (herr : strTruthy a.PromptJsonFile = false ∨ env.jsonFileExists = false ∨
      env.parsed = .error ())
    (hoerr : oenv.manifestExists = false ∨ oenv.parsed = .error ()) :
    (zMain a env).jobs = [] ∧ (zMain a env).errorLine.isSome = true ∧
    (zMain a env).dirsCreated = (if env.outDirExists then [] else ["backgrounds"]) ∧
    isOkE (organizeMain oenv).result = false ∧
    (organizeMain oenv).dirsCreated =
      (if oenv.targetDirExists then [] else ["assets/textures"]) := by
  have hzres : (zMain a env).jobs = [] ∧ (zMain a env).errorLine.isSome = true ∧
      (zMain a env).dirsCreated = (if env.outDirExists then [] else ["backgrounds"]) := by
    rcases herr with h1 | h1 | h1
    · simp [zMain, hpipe, hmode, h1]
    · cases hpj : strTruthy a.PromptJsonFile <;> simp [zMain, hpipe, hmode, h1, hpj]
    · cases hpj : strTruthy a.PromptJsonFile <;> cases hje : env.jsonFileExists <;>
        simp [zMain, hpipe, hmode, h1, hpj, hje]
  have hores : isOkE (organizeMain oenv).result = false ∧
      (organizeMain oenv).dirsCreated =
        (if oenv.targetDirExists then [] else ["assets/textures"]) := by
    rcases hoerr with h2 | h2
    · simp [organizeMain, h2, isOkE]
    · cases hme : oenv.manifestExists <;> simp [organizeMain, h2, hme, isOkE]
  exact ⟨hzres.1, hzres.2.1, hzres.2.2, hores.1, hores.2⟩

/-- Witness for C9: manifest mode with the manifest file absent. -/
theorem error_paths_spec_witness :
    zEnvC9.pipeOk = true ∧ strTruthy zArgsC9.Prompt = false ∧
    (strTruthy zArgsC9.PromptJsonFile = false ∨ zEnvC9.jsonFileExists = false ∨
      zEnvC9.parsed = .error ()) ∧
    (oEnvC9.manifestExists = false ∨ oEnvC9.parsed = .error ()) ∧
    ((zMain zArgsC9 zEnvC9).jobs = [] ∧ (zMain zArgsC9 zEnvC9).errorLine.isSome = true ∧
     (zMain zArgsC9 zEnvC9).dirsCreated =
       (if zEnvC9.outDirExists then [] else ["backgrounds"]) ∧
     isOkE (organizeMain oEnvC9).result = false ∧
     (organizeMain oEnvC9).dirsCreated =
       (if oEnvC9.targetDirExists then [] else ["assets/textures"])) :=
  ⟨rfl, rfl, Or.inr (Or.inl rfl), Or.inl rfl,
   error_paths_spec zArgsC9 zEnvC9 oEnvC9 rfl rfl (Or.inr (Or.inl rfl)) (Or.inl rfl)⟩

end Apartment
